import Mathlib

/-!
Formal model of the ghostmark annotation engine (src/index.ts) and proofs
about its behaviour.  Every definition in the Ghostmark namespace is a
shallow embedding of the corresponding TypeScript function or data shape,
translated line by line from the source; definitions whose names start with
spec… render sentences of the natural-language specification instead and are
compared with the source-derived definitions in the theorems.
-/

namespace Ghostmark

/-- Embeds the resolved GhostmarkOptions record (all optional fields filled
with their defaults, as built at the top of the plugin factory).  The
source field named include is rendered here as includeExts because include
is a reserved word in Lean. -/
structure GhostmarkOptions where
  includeId : Bool
  includeName : Bool
  includePath : Bool
  includeLine : Bool
  includeFile : Bool
  includeContent : Bool
  tagPrefix : String
  includeExts : List String
  exclude : List String
  useRelativePath : Bool
  debug : Bool
  filter3DElements : Bool
deriving Repr, DecidableEq

/-- The resolved default configuration (the ?? defaults of the factory). -/
def defaultOptions : GhostmarkOptions :=
  { includeId := true
  , includeName := true
  , includePath := true
  , includeLine := true
  , includeFile := true
  , includeContent := true
  , tagPrefix := "gm"
  , includeExts := [".jsx", ".tsx"]
  , exclude := ["node_modules"]
  , useRelativePath := true
  , debug := false
  , filter3DElements := true }

/-- The THREE_D_ELEMENTS set literal, reproduced verbatim from the source.
Membership is all that is ever asked of it, so a list models the Set. -/
def THREE_D_ELEMENTS : List String :=
  [ "mesh", "group", "scene", "object3D"
  , "geometry", "bufferGeometry", "boxGeometry", "sphereGeometry"
  , "planeGeometry", "cylinderGeometry", "coneGeometry", "torusGeometry"
  , "circleGeometry", "ringGeometry", "tubeGeometry", "extrudeGeometry"
  , "material", "meshBasicMaterial", "meshStandardMaterial"
  , "meshPhysicalMaterial", "meshLambertMaterial", "meshPhongMaterial"
  , "shaderMaterial", "lineBasicMaterial", "pointsMaterial"
  , "ambientLight", "directionalLight", "pointLight", "spotLight"
  , "hemisphereLight", "rectAreaLight"
  , "perspectiveCamera", "orthographicCamera"
  , "OrbitControls", "PerspectiveCamera", "OrthographicCamera"
  , "Stars", "Sky", "Environment", "ContactShadows", "BakeShadows"
  , "SoftShadows", "AccumulativeShadows", "RandomizedLight"
  , "Box", "Sphere", "Plane", "Cylinder", "Cone", "Torus", "Circle"
  , "Text", "Text3D", "MeshReflectorMaterial", "MeshWobbleMaterial"
  , "MeshDistortMaterial", "Float", "Stage", "Lightformer"
  , "SpotLight", "PointLight", "DirectionalLight", "AmbientLight" ]

/-- is3DElement: THREE_D_ELEMENTS.has(elementName). -/
def is3DElement (elementName : String) : Bool :=
  THREE_D_ELEMENTS.contains elementName

/-- The name object of a JSXOpeningElement node.  type is the Babel type
tag ("JSXIdentifier" or "JSXMemberExpression"; anything else is an
unsupported name form).  name embeds name?.name, object embeds
object?.name, property embeds property?.name; endPos embeds the end
offset, kept optional because the source guards it with ?? 0. -/
structure JSXNameNode where
  type : String
  name : Option String
  object : Option String
  property : Option String
  endPos : Option Nat
deriving Repr, DecidableEq

/-- An expression node carrying only what the source reads: its type tag
and, for string literals, its value. -/
structure ExprNode where
  type : String
  value : Option String
deriving Repr, DecidableEq

/-- The value object of a JSXAttribute: a type tag, an optional literal
value, and an optional wrapped expression. -/
structure AttrValueNode where
  type : String
  value : Option String
  expression : Option ExprNode
deriving Repr, DecidableEq

/-- A JSXAttribute node: type tag (a spread attribute has another tag),
name?.name, and the optional value node. -/
structure JSXAttribute where
  type : String
  name : Option String
  value : Option AttrValueNode
deriving Repr, DecidableEq

/-- loc.start of a node: 1-based line, 0-based column. -/
structure JSXLocation where
  line : Nat
  column : Nat
deriving Repr, DecidableEq

/-- A JSXOpeningElement node as the source reads it.  locStart embeds
loc?.start (two optional hops collapse into one Option), typeParameters
embeds typeParameters?.end, present exactly when the tag carries a generic
type-parameter list. -/
structure JSXNode where
  name : JSXNameNode
  locStart : Option JSXLocation
  attributes : List JSXAttribute
  typeParameters : Option Nat
deriving Repr, DecidableEq

/-- extractElementName, translated from the source: a JSXIdentifier yields
its name (?? null), a JSXMemberExpression yields object.property with each
missing part defaulted to the empty string, anything else yields null. -/
def extractElementName (jsxNode : JSXNode) : Option String :=
  if jsxNode.name.type = "JSXIdentifier" then
    jsxNode.name.name
  else if jsxNode.name.type = "JSXMemberExpression" then
    some ((jsxNode.name.object.getD "") ++ "." ++ (jsxNode.name.property.getD ""))
  else
    none

/-- JavaScript truthiness of a string|null value: null and the empty
string are falsy. -/
def jsTruthy : Option String → Bool
  | none => false
  | some s => s ≠ ""

/-- A plain JavaScript object used as a string→string record, keyed by
first occurrence; assignment to an existing key overwrites its value. -/
def recordSet (r : List (String × String)) (k v : String) : List (String × String) :=
  if r.any (fun p => p.1 == k) then
    r.map (fun p => if p.1 == k then (k, v) else p)
  else
    r ++ [(k, v)]

/-- Property lookup in the record: the value stored at the key, if any. -/
def recordGet (r : List (String × String)) (k : String) : Option String :=
  (r.find? (fun p => p.1 == k)).map (fun p => p.2)

/-- extractElementAttributes: the reduce over the attribute list.  Only
real JSXAttribute nodes with a truthy name contribute; a value that is a
StringLiteral, or a JSXExpressionContainer wrapping a StringLiteral,
stores its string (?? ''); everything else is ignored. -/
def extractElementAttributes (attributes : List JSXAttribute) : List (String × String) :=
  attributes.foldl (fun acc attr =>
    if attr.type ≠ "JSXAttribute" then acc
    else
      let attrName := attr.name.getD ""
      if attrName = "" then acc
      else if (attr.value.map (fun v => v.type)) = some "StringLiteral" then
        recordSet acc attrName ((attr.value.bind (fun v => v.value)).getD "")
      else if (attr.value.map (fun v => v.type)) = some "JSXExpressionContainer"
              ∧ ((attr.value.bind (fun v => v.expression)).map (fun e => e.type)) = some "StringLiteral" then
        recordSet acc attrName (((attr.value.bind (fun v => v.expression)).bind (fun e => e.value)).getD "")
      else acc) []

/-- One node of the parsed JSX tree, restricted to the shapes the walker's
enter handler distinguishes: a full element (its opening tag plus its
children), a fragment (grouping only), literal text, an expression
container, and any other child node shape. -/
inductive JTree where
  | elem (opening : JSXNode) (children : List JTree)
  | fragment (children : List JTree)
  | text (value : Option String)
  | exprContainer (expression : Option ExprNode)
  | otherNode

/-- Leading whitespace characters dropped from a character list. -/
def dropLeadingWs : List Char → List Char
  | [] => []
  | c :: cs => if c.isWhitespace then dropLeadingWs cs else c :: cs

/-- JavaScript's String.prototype.trim: whitespace stripped from both
ends (modelled over Unicode scalars with Char.isWhitespace). -/
def jsTrim (s : String) : String :=
  String.mk ((dropLeadingWs ((dropLeadingWs s.data).reverse)).reverse)

/-- The per-child mapping inside extractTextContent: JSXText contributes
value?.trim() ?? '', a JSXExpressionContainer wrapping a StringLiteral
contributes its value ?? '', every other child contributes ''. -/
def childTextPiece : JTree → String
  | JTree.text v => (v.map (fun s => jsTrim s)).getD ""
  | JTree.exprContainer e =>
      match e with
      | some ex => if ex.type = "StringLiteral" then ex.value.getD "" else ""
      | none => ""
  | _ => ""

/-- extractTextContent: map the children, drop falsy (empty) pieces, join
with single spaces, trim.  A null element, or one without children,
yields the empty string. -/
def extractTextContent (element : Option JTree) : String :=
  match element with
  | some (JTree.elem _ children) =>
      jsTrim (String.intercalate " " ((children.map childTextPiece).filter (fun s => s ≠ "")))
  | _ => ""

/-- The content snapshot: each field is set only when its source value is
truthy (a non-empty string). -/
structure ElementContent where
  text : Option String
  placeholder : Option String
  className : Option String
deriving Repr, DecidableEq

/-- buildContentObject: fields are assigned in the fixed order text,
placeholder, className, each only when truthy. -/
def buildContentObject (textContent : String) (attributes : List (String × String)) : ElementContent :=
  { text := if textContent ≠ "" then some textContent else none
  , placeholder :=
      match recordGet attributes "placeholder" with
      | some v => if v ≠ "" then some v else none
      | none => none
  , className :=
      match recordGet attributes "className" with
      | some v => if v ≠ "" then some v else none
      | none => none }

/-- Object.keys(content).length for the snapshot: how many fields are set. -/
def contentKeysCount (c : ElementContent) : Nat :=
  (if c.text.isSome then 1 else 0)
    + (if c.placeholder.isSome then 1 else 0)
    + (if c.className.isSome then 1 else 0)

/-- One hexadecimal digit, upper case (encodeURIComponent emits upper-case
escapes). -/
def hexDigitUpper (n : Nat) : Char :=
  if n < 10 then Char.ofNat (48 + n) else Char.ofNat (55 + n)

/-- A percent escape for one byte. -/
def percentByte (b : Nat) : String :=
  String.mk ['%', hexDigitUpper (b / 16), hexDigitUpper (b % 16)]

/-- The UTF-8 bytes of one Unicode scalar value. -/
def utf8Bytes (n : Nat) : List Nat :=
  if n < 128 then [n]
  else if n < 2048 then [192 + n / 64, 128 + n % 64]
  else if n < 65536 then [224 + n / 4096, 128 + (n / 64) % 64, 128 + n % 64]
  else [240 + n / 262144, 128 + (n / 4096) % 64, 128 + (n / 64) % 64, 128 + n % 64]

/-- The characters encodeURIComponent leaves unescaped: ASCII letters and
digits plus the uriMark set - _ . ! ~ * ' ( ). -/
def isUnescapedURIChar (c : Char) : Bool :=
  (65 ≤ c.toNat && c.toNat ≤ 90)
    || (97 ≤ c.toNat && c.toNat ≤ 122)
    || (48 ≤ c.toNat && c.toNat ≤ 57)
    || [ '-', '_', '.', '!', '~', '*', Char.ofNat 39, '(', ')'].contains c

/-- encodeURIComponent: every character outside the unescaped set is
replaced by the upper-case percent escapes of its UTF-8 bytes. -/
def encodeURIComponent (s : String) : String :=
  String.join (s.data.map (fun c =>
    if isUnescapedURIChar c then String.singleton c
    else String.join ((utf8Bytes c.toNat).map percentByte)))

/-- JSON.stringify's escaping of one character inside a string literal. -/
def jsonEscapeChar (c : Char) : String :=
  if c = Char.ofNat 34 then "\\\""
  else if c = Char.ofNat 92 then "\\\\"
  else if c = Char.ofNat 8 then "\\b"
  else if c = Char.ofNat 9 then "\\t"
  else if c = Char.ofNat 10 then "\\n"
  else if c = Char.ofNat 12 then "\\f"
  else if c = Char.ofNat 13 then "\\r"
  else if c.toNat < 32 then
    String.mk ['\\', 'u', '0', '0', hexDigitUpper (c.toNat / 16), hexDigitUpper (c.toNat % 16)]
  else String.singleton c

/-- A JSON string literal for s. -/
def jsonQuote (s : String) : String :=
  "\"" ++ String.join (s.data.map jsonEscapeChar) ++ "\""

/-- JSON.stringify of the content snapshot: a compact object whose members
appear in the fixed insertion order text, placeholder, className, absent
fields omitted. -/
def jsonStringifyContent (c : ElementContent) : String :=
  let fields : List String :=
    (match c.text with
     | some v => ["\"text\":" ++ jsonQuote v]
     | none => [])
    ++ (match c.placeholder with
        | some v => ["\"placeholder\":" ++ jsonQuote v]
        | none => [])
    ++ (match c.className with
        | some v => ["\"className\":" ++ jsonQuote v]
        | none => [])
  "\x7b" ++ String.intercalate "," fields ++ "\x7d"

/-- The per-tag payload handed to buildDataAttributes by the transform. -/
structure AttrData where
  elementName : String
  filePath : String
  fileName : String
  line : Nat
  col : Nat
  content : ElementContent

/-- The attribute strings buildDataAttributes pushes, in push order: one
conditional push per facet, the content push additionally gated on the
snapshot having at least one key.  Each string is the source's template
literal spelled out. -/
def buildAttributeList (options : GhostmarkOptions) (data : AttrData) : List String :=
  (if options.includeId then
     ["data-" ++ options.tagPrefix ++ "-id=\"" ++ data.filePath ++ ":"
        ++ toString data.line ++ ":" ++ toString data.col ++ "\""]
   else [])
  ++ (if options.includeName then
        ["data-" ++ options.tagPrefix ++ "-name=\"" ++ data.elementName ++ "\""]
      else [])
  ++ (if options.includePath then
        ["data-" ++ options.tagPrefix ++ "-path=\"" ++ data.filePath ++ "\""]
      else [])
  ++ (if options.includeLine then
        ["data-" ++ options.tagPrefix ++ "-line=\"" ++ toString data.line ++ "\""]
      else [])
  ++ (if options.includeFile then
        ["data-" ++ options.tagPrefix ++ "-file=\"" ++ data.fileName ++ "\""]
      else [])
  ++ (if options.includeContent ∧ contentKeysCount data.content > 0 then
        ["data-" ++ options.tagPrefix ++ "-content=\""
           ++ encodeURIComponent (jsonStringifyContent data.content) ++ "\""]
      else [])

/-- buildDataAttributes: the pushed attributes joined by single spaces with
one leading space, or the empty string when nothing was pushed. -/
def buildDataAttributes (options : GhostmarkOptions) (data : AttrData) : String :=
  let attributes := buildAttributeList options data
  if attributes.length > 0 then " " ++ String.intercalate " " attributes else ""

/-- getInsertPosition: typeParameters?.end ?? name.end ?? 0. -/
def getInsertPosition (jsxNode : JSXNode) : Nat :=
  match jsxNode.typeParameters with
  | some e => e
  | none => jsxNode.name.endPos.getD 0

/-- shouldSkipElement: a falsy (null or empty) name is skipped; Fragment
and React.Fragment are skipped; when the 3D filter is on, members of the
3D element set are skipped. -/
def shouldSkipElement (elementName : Option String) (options : GhostmarkOptions) : Bool :=
  match elementName with
  | none => true
  | some n =>
    if n = "" then true
    else if n == "Fragment" || n == "React.Fragment" then true
    else if options.filter3DElements && is3DElement n then true
    else false

/-- Per-file context the transform computes before walking: the resolved
file path and base file name (path.relative / path.basename are external
collaborators; their outputs enter the core as data). -/
structure FileCtx where
  filePath : String
  fileName : String
deriving Repr, DecidableEq

/-- Per-plugin-instance counters. -/
structure ProcessingStats where
  totalFiles : Nat
  processedFiles : Nat
  totalElements : Nat
  skippedElements : Nat
deriving Repr, DecidableEq

/-- Instrumentation of the walk: what the enter handler saw at each node it
distinguishes - the opening tag together with the enclosing-element
reference current at that moment, and likewise for non-element child
nodes. -/
inductive TraceEvent where
  | openingVisit (opening : JSXNode) (cur : Option JTree)
  | childVisit (child : JTree) (cur : Option JTree)

/-- The walk's mutable state: the single currentElement reference, the
insertions registered with the MagicString buffer (in registration order),
the changedElementsCount local, the skippedElements counter, and the
instrumentation trace. -/
structure WalkState where
  currentElement : Option JTree
  insertions : List (Nat × String)
  changed : Nat
  skipped : Nat
  trace : List TraceEvent

/-- The walk's starting state for one file. -/
def initialWalkState : WalkState :=
  { currentElement := none, insertions := [], changed := 0, skipped := 0, trace := [] }

/-- The attribute string built for one opening tag against the enclosing
element current at that moment: lines 417-431 of the source (attribute
extraction, text extraction, content object, location defaults, then
buildDataAttributes). -/
def builtAttributes (options : GhostmarkOptions) (ctx : FileCtx)
    (jsxNode : JSXNode) (cur : Option JTree) : String :=
  let elementAttributes := extractElementAttributes jsxNode.attributes
  let textContent := extractTextContent cur
  let content := buildContentObject textContent elementAttributes
  let line := (jsxNode.locStart.map (fun l => l.line)).getD 0
  let col := (jsxNode.locStart.map (fun l => l.column)).getD 0
  buildDataAttributes options
    { elementName := (extractElementName jsxNode).getD ""
    , filePath := ctx.filePath
    , fileName := ctx.fileName
    , line := line
    , col := col
    , content := content }

/-- The enter handler's JSXOpeningElement branch: skip (counting only
truthy names), or build the attribute string and, when it is non-empty,
register an insertion at getInsertPosition and bump the changed count. -/
def processOpeningTag (options : GhostmarkOptions) (ctx : FileCtx)
    (jsxNode : JSXNode) (st : WalkState) : WalkState :=
  let elementName := extractElementName jsxNode
  if shouldSkipElement elementName options then
    if jsTruthy elementName then { st with skipped := st.skipped + 1 } else st
  else
    let attributes := builtAttributes options ctx jsxNode st.currentElement
    if attributes ≠ "" then
      { st with
          insertions := st.insertions ++ [(getInsertPosition jsxNode, attributes)]
        , changed := st.changed + 1 }
    else st

mutual

/-- One node of the walk, in the walker's depth-first pre-order: entering a
full element overwrites currentElement and is followed at once by its
opening tag, then its children; a fragment only descends; any other node
is entered and left untouched.  The trace records what the handler saw. -/
def walkTree (options : GhostmarkOptions) (ctx : FileCtx) : JTree → WalkState → WalkState
  | JTree.elem opening children, st =>
      let st1 := { st with currentElement := some (JTree.elem opening children) }
      let st2 := { st1 with
                     trace := st1.trace ++ [TraceEvent.openingVisit opening st1.currentElement] }
      walkList options ctx children (processOpeningTag options ctx opening st2)
  | JTree.fragment children, st =>
      let st1 := { st with
                     trace := st.trace ++ [TraceEvent.childVisit (JTree.fragment children) st.currentElement] }
      walkList options ctx children st1
  | t, st =>
      { st with trace := st.trace ++ [TraceEvent.childVisit t st.currentElement] }

/-- The walk over a sibling list, left to right, threading the state. -/
def walkList (options : GhostmarkOptions) (ctx : FileCtx) : List JTree → WalkState → WalkState
  | [], st => st
  | t :: ts, st => walkList options ctx ts (walkTree options ctx t st)

end

/-- The per-file transform after the extension/exclude filter accepted the
file: the totalFiles counter is bumped, then the parse outcome decides.
A parse failure lands in the catch branch, which bumps processedFiles and
returns null; a parsed tree is walked and its insertions returned while
processedFiles, totalElements and skippedElements are updated. -/
def transform (options : GhostmarkOptions) (ctx : FileCtx)
    (parsed : Option (List JTree)) (stats : ProcessingStats) :
    Option (List (Nat × String)) × ProcessingStats :=
  let stats1 := { stats with totalFiles := stats.totalFiles + 1 }
  match parsed with
  | none =>
      (none, { stats1 with processedFiles := stats1.processedFiles + 1 })
  | some trees =>
      let ws := walkList options ctx trees initialWalkState
      (some ws.insertions,
       { stats1 with
           processedFiles := stats1.processedFiles + 1
         , totalElements := stats1.totalElements + ws.changed
         , skippedElements := stats1.skippedElements + ws.skipped })

/-! Renderings of the specification's own words, for comparison with the
source-derived definitions above. -/

/-- The six facets in the spec's fixed output order - identifier, name,
path, line, file, content - each as (enabled?, rendered attribute), the
content facet enabled only together with a non-empty snapshot. -/
def specFacetPairs (options : GhostmarkOptions) (data : AttrData) : List (Bool × String) :=
  [ (options.includeId,
     "data-" ++ options.tagPrefix ++ "-id=\"" ++ data.filePath ++ ":"
       ++ toString data.line ++ ":" ++ toString data.col ++ "\"")
  , (options.includeName,
     "data-" ++ options.tagPrefix ++ "-name=\"" ++ data.elementName ++ "\"")
  , (options.includePath,
     "data-" ++ options.tagPrefix ++ "-path=\"" ++ data.filePath ++ "\"")
  , (options.includeLine,
     "data-" ++ options.tagPrefix ++ "-line=\"" ++ toString data.line ++ "\"")
  , (options.includeFile,
     "data-" ++ options.tagPrefix ++ "-file=\"" ++ data.fileName ++ "\"")
  , (options.includeContent && decide (contentKeysCount data.content > 0),
     "data-" ++ options.tagPrefix ++ "-content=\""
       ++ encodeURIComponent (jsonStringifyContent data.content) ++ "\"") ]

/-- Claim C5 verbatim: every attribute is written <p>-facet="value" with
the configured prefix p and nothing before it.  (The source actually
emits data-<p>-facet="value"; the theorems compare the two.) -/
def claimFacetForms (p : String) (data : AttrData) : List String :=
  [ p ++ "-id=\"" ++ data.filePath ++ ":" ++ toString data.line ++ ":"
      ++ toString data.col ++ "\""
  , p ++ "-name=\"" ++ data.elementName ++ "\""
  , p ++ "-path=\"" ++ data.filePath ++ "\""
  , p ++ "-line=\"" ++ toString data.line ++ "\""
  , p ++ "-file=\"" ++ data.fileName ++ "\""
  , p ++ "-content=\"" ++ encodeURIComponent (jsonStringifyContent data.content) ++ "\"" ]

/-- The spec's block shape: each attribute preceded by exactly one space,
concatenated - so the block opens with one space and carries no trailing
space, and no attributes yield the empty string. -/
def specJoinSpaced : List String → String
  | [] => ""
  | a :: as => " " ++ a ++ specJoinSpaced as

/-- The spec's per-child contribution for text extraction: a literal text
child contributes its trimmed value, a string literal inside an
expression container contributes its value, every other child nothing. -/
def specChildPiece : JTree → Option String
  | JTree.text v => some (jsTrim (v.getD ""))
  | JTree.exprContainer (some e) =>
      if e.type = "StringLiteral" then some (e.value.getD "") else none
  | _ => none

/-- The spec's text extraction: contributions in document order, the
non-empty pieces joined with a single space, the result trimmed. -/
def specTextContent (children : List JTree) : String :=
  jsTrim (String.intercalate " " ((children.filterMap specChildPiece).filter (fun s => s ≠ "")))

/-! Concrete fixtures used by the closed theorems below. -/

/-- The spec's worked example payload: Button at src/App.tsx:6:8 with
literal text "Click me". -/
def exampleData : AttrData :=
  { elementName := "Button"
  , filePath := "src/App.tsx"
  , fileName := "App.tsx"
  , line := 6
  , col := 8
  , content := { text := some "Click me", placeholder := none, className := none } }

/-- Every facet disabled. -/
def allOffOptions : GhostmarkOptions :=
  { defaultOptions with
      includeId := false, includeName := false, includePath := false
    , includeLine := false, includeFile := false, includeContent := false }

/-- A tag with a generic type-parameter list ending at 9 and a name token
ending at 6. -/
def genericNode : JSXNode :=
  { name := { type := "JSXIdentifier", name := some "Field"
            , object := none, property := none, endPos := some 6 }
  , locStart := some { line := 1, column := 0 }
  , attributes := []
  , typeParameters := some 9 }

/-- A member-expression tag both of whose sub-names are missing. -/
def memberDotNode : JSXNode :=
  { name := { type := "JSXMemberExpression", name := none
            , object := none, property := none, endPos := some 7 }
  , locStart := none
  , attributes := []
  , typeParameters := none }

/-- An opening tag named Fragment. -/
def fragmentNode : JSXNode :=
  { name := { type := "JSXIdentifier", name := some "Fragment"
            , object := none, property := none, endPos := some 9 }
  , locStart := some { line := 2, column := 4 }
  , attributes := []
  , typeParameters := none }

/-- An opening tag named Button that carries neither a type-parameter-list
end offset nor a name end offset. -/
def buttonNoEndNode : JSXNode :=
  { name := { type := "JSXIdentifier", name := some "Button"
            , object := none, property := none, endPos := none }
  , locStart := none
  , attributes := []
  , typeParameters := none }

/-- File context of the worked example. -/
def ctx0 : FileCtx := { filePath := "src/App.tsx", fileName := "App.tsx" }

/-- Opening tag of the outer element of the sibling fixture. -/
def opA : JSXNode :=
  { name := { type := "JSXIdentifier", name := some "Outer"
            , object := none, property := none, endPos := some 6 }
  , locStart := some { line := 1, column := 0 }
  , attributes := []
  , typeParameters := none }

/-- Opening tag of the inner element of the sibling fixture. -/
def opB : JSXNode :=
  { name := { type := "JSXIdentifier", name := some "Inner"
            , object := none, property := none, endPos := some 20 }
  , locStart := some { line := 2, column := 2 }
  , attributes := []
  , typeParameters := none }

/-- The inner, childless element. -/
def treeB : JTree := JTree.elem opB []

/-- The outer element: the inner element followed by literal text, so the
text child is visited after the inner subtree was exited. -/
def treeA : JTree := JTree.elem opA [treeB, JTree.text (some "hi")]

/-- Fresh counters. -/
def zeroStats : ProcessingStats :=
  { totalFiles := 0, processedFiles := 0, totalElements := 0, skippedElements := 0 }

/-! Helper lemmas shared by the claim theorems. -/

/-- The source's map-then-drop-falsy pipeline over the children agrees
with the spec's contribute-or-nothing pipeline. -/
theorem textPieces_eq (children : List JTree) :
    (children.map childTextPiece).filter (fun s => s ≠ "")
      = (children.filterMap specChildPiece).filter (fun s => s ≠ "") := by
  induction children with
  | nil => rfl
  | cons c cs ih =>
      have ih2 : List.filter (fun s => !decide (s = "")) (List.map childTextPiece cs)
          = List.filter (fun s => !decide (s = "")) (List.filterMap specChildPiece cs) := by
        simpa using ih
      cases c with
      | elem opening kids => simpa [childTextPiece, specChildPiece] using ih
      | fragment kids => simpa [childTextPiece, specChildPiece] using ih
      | text v =>
          cases v <;>
            simp [childTextPiece, specChildPiece, List.filter_cons,
                  (show jsTrim "" = "" from rfl), ih2]
      | exprContainer e =>
          cases e with
          | none => simpa [childTextPiece, specChildPiece] using ih
          | some ex =>
              by_cases hty : ex.type = "StringLiteral" <;>
                simp [childTextPiece, specChildPiece, hty, List.filter_cons, ih2]
      | otherNode => simpa [childTextPiece, specChildPiece] using ih

/-- C1.  For every processed opening tag: a generic type-parameter list
ending at K places the insertion offset at K; otherwise the offset is the
name token's end N; when both exist with K > N the offset is K, never N. -/
theorem C1_insert_offset (jsxNode : JSXNode) (K N : Nat) :
    (jsxNode.typeParameters = some K → getInsertPosition jsxNode = K)
    ∧ (jsxNode.typeParameters = none → jsxNode.name.endPos = some N →
        getInsertPosition jsxNode = N)
    ∧ (jsxNode.typeParameters = some K → jsxNode.name.endPos = some N → K > N →
        getInsertPosition jsxNode = K ∧ getInsertPosition jsxNode ≠ N) := by
  refine ⟨fun h => by simp [getInsertPosition, h],
          fun h1 h2 => by simp [getInsertPosition, h1, h2],
          fun h1 h2 h3 => ⟨by simp [getInsertPosition, h1], ?_⟩⟩
  simp only [getInsertPosition, h1]
  omega

/-- C1, witnessed on the generic-tag fixture (type parameters end at 9,
name ends at 6): the insertion offset is 9, not 6. -/
theorem C1_insert_offset_witness :
    getInsertPosition genericNode = 9 ∧ getInsertPosition genericNode ≠ 6 :=
  (C1_insert_offset genericNode 9 6).2.2 rfl rfl (by omega)

/-- C4.  When parsing failed, the transform returns null with no
insertions, and increments totalFiles - but it also increments
processedFiles (the catch branch runs stats.processedFiles++), contrary
to the claim that the file is not counted as processed. -/
theorem C4_parse_failure_stats (options : GhostmarkOptions) (ctx : FileCtx)
    (stats : ProcessingStats) :
    transform options ctx none stats
      = (none, { stats with
                   totalFiles := stats.totalFiles + 1
                 , processedFiles := stats.processedFiles + 1 }) := rfl

/-- C8.  Extracted text content of an enclosing element equals the spec's
description: document-order contributions (trimmed literal text, literal
strings in expression containers, nothing for dynamic children), the
non-empty pieces joined with one space, the result trimmed. -/
theorem C8_extracted_text (opening : JSXNode) (children : List JTree) :
    extractTextContent (some (JTree.elem opening children)) = specTextContent children := by
  simp only [extractTextContent, specTextContent, textPieces_eq]

/-- C10.  A member-expression-named tag always yields the name
object.property (missing sub-names becoming empty strings), never null,
and its skip decision reduces to the fragment and 3D checks alone - it is
never skipped for lack of a name. -/
theorem C10_member_expression_name (jsxNode : JSXNode) (obj prop nm : Option String)
    (e : Option Nat)
    (h : jsxNode.name = { type := "JSXMemberExpression", name := nm
                        , object := obj, property := prop, endPos := e }) :
    extractElementName jsxNode = some ((obj.getD "") ++ "." ++ (prop.getD ""))
    ∧ extractElementName jsxNode ≠ none
    ∧ ∀ options : GhostmarkOptions,
        shouldSkipElement (extractElementName jsxNode) options
          = (((obj.getD "") ++ "." ++ (prop.getD "")) == "Fragment"
             || ((obj.getD "") ++ "." ++ (prop.getD "")) == "React.Fragment"
             || (options.filter3DElements
                  && is3DElement ((obj.getD "") ++ "." ++ (prop.getD "")))) := by
  have hname : extractElementName jsxNode
      = some ((obj.getD "") ++ "." ++ (prop.getD "")) := by
    simp [extractElementName, h]
  have hne : (obj.getD "") ++ "." ++ (prop.getD "") ≠ "" := by
    intro hcontra
    have hlen := congrArg String.length hcontra
    simp only [String.length_append, String.length_empty] at hlen
    have hdot : ("." : String).length = 1 := rfl
    omega
  refine ⟨hname, by simp [hname], fun options => ?_⟩
  rw [hname]
  cases h1 : (((obj.getD "") ++ "." ++ (prop.getD "")) == "Fragment"
              || ((obj.getD "") ++ "." ++ (prop.getD "")) == "React.Fragment") <;>
    cases h2 : (options.filter3DElements
                 && is3DElement ((obj.getD "") ++ "." ++ (prop.getD ""))) <;>
      simp_all [shouldSkipElement]

/-- Filtering a consed (enabled?, attribute) pair unfolds to a conditional
singleton followed by the filtered tail. -/
theorem filter_pairs_cons (b : Bool) (s : String) (ps : List (Bool × String)) :
    (((b, s) :: ps).filter (fun p => p.1)).map (fun p => p.2)
      = (if b then [s] else []) ++ ((ps.filter (fun p => p.1)).map (fun p => p.2)) := by
  cases b <;> simp [List.filter_cons]

/-- The source's sequence of conditional pushes equals the spec's fixed
facet order filtered down to the enabled facets. -/
theorem buildAttributeList_eq_filter (options : GhostmarkOptions) (data : AttrData) :
    buildAttributeList options data
      = ((specFacetPairs options data).filter (fun p => p.1)).map (fun p => p.2) := by
  by_cases h6 : options.includeContent <;>
    by_cases hc : contentKeysCount data.content > 0 <;>
      simp [buildAttributeList, specFacetPairs, filter_pairs_cons, h6, hc]

/-- The tail recursion of String.intercalate with a space separator,
rephrased as the spec's space-then-attribute concatenation. -/
theorem intercalate_go_spaced (as : List String) (acc : String) :
    String.intercalate.go acc " " as = acc ++ specJoinSpaced as := by
  induction as generalizing acc with
  | nil => simp [String.intercalate.go, specJoinSpaced]
  | cons a as ih => simp [String.intercalate.go, specJoinSpaced, ih, String.append_assoc]

/-- The source's leading-space-plus-join rendering equals the spec's
one-space-before-each-attribute rendering, including the empty case. -/
theorem block_eq_specJoinSpaced (l : List String) :
    (if l.length > 0 then " " ++ String.intercalate " " l else "") = specJoinSpaced l := by
  cases l with
  | nil => rfl
  | cons a as =>
      simp [String.intercalate, intercalate_go_spaced, specJoinSpaced, String.append_assoc]

/-- C5 (amended).  For every configuration and payload the emitted block
is bit-exact: the enabled facets' attributes, each of the form
data-<p>-facet="value" in the fixed order, each preceded by exactly one
space, with no trailing space, and the empty string when nothing is
enabled.  (Amended from the claim's <p>-facet="value": the source
prefixes every attribute name with the literal "data-".) -/
theorem C5_attribute_block (options : GhostmarkOptions) (data : AttrData) :
    buildDataAttributes options data
      = specJoinSpaced
          (((specFacetPairs options data).filter (fun p => p.1)).map (fun p => p.2)) := by
  rw [← buildAttributeList_eq_filter]
  simp only [buildDataAttributes]
  exact block_eq_specJoinSpaced (buildAttributeList options data)

/-- C5, refuted as literally stated: on the spec's own worked example the
emitted block is not the claim's block of <p>-facet="value" attributes
(the code writes data-gm-id=..., not gm-id=...). -/
theorem C5_counterexample :
    buildDataAttributes defaultOptions exampleData
      ≠ specJoinSpaced (claimFacetForms "gm" exampleData) := by decide

/-- C6.  The pushed attributes are exactly the spec's fixed-order facet
list filtered to the enabled facets - disabled facets are omitted and the
relative order of the enabled ones is fixed - and when no facet produced
output the result is the empty string, not a lone space. -/
theorem C6_facet_order (options : GhostmarkOptions) (data : AttrData) :
    buildAttributeList options data
      = ((specFacetPairs options data).filter (fun p => p.1)).map (fun p => p.2)
    ∧ (buildAttributeList options data = [] → buildDataAttributes options data = "") :=
  ⟨buildAttributeList_eq_filter options data,
   fun h => by simp [buildDataAttributes, h]⟩

/-- C6, witnessed with every facet disabled: the serialized result is the
empty string. -/
theorem C6_facet_order_witness :
    buildDataAttributes allOffOptions exampleData = "" :=
  (C6_facet_order allOffOptions exampleData).2 rfl

/-- C7.  An element whose extracted text is empty and whose attribute
record holds no placeholder and no className produces no content
attribute: serialization is the same as with the content facet disabled. -/
theorem C7_no_content_attribute (options : GhostmarkOptions)
    (elementName filePath fileName : String) (line col : Nat)
    (cur : Option JTree) (attrs : List JSXAttribute)
    (h1 : extractTextContent cur = "")
    (h2 : recordGet (extractElementAttributes attrs) "placeholder" = none)
    (h3 : recordGet (extractElementAttributes attrs) "className" = none) :
    buildDataAttributes options
      { elementName := elementName, filePath := filePath, fileName := fileName
      , line := line, col := col
      , content := buildContentObject (extractTextContent cur) (extractElementAttributes attrs) }
      = buildDataAttributes { options with includeContent := false }
          { elementName := elementName, filePath := filePath, fileName := fileName
          , line := line, col := col
          , content := buildContentObject (extractTextContent cur) (extractElementAttributes attrs) } := by
  have hc : buildContentObject (extractTextContent cur) (extractElementAttributes attrs)
      = { text := none, placeholder := none, className := none } := by
    rw [h1]
    simp [buildContentObject, h2, h3]
  simp [buildDataAttributes, buildAttributeList, hc, contentKeysCount]

/-- C7, witnessed on a childless element context with no attributes under
the default configuration (content facet enabled). -/
theorem C7_no_content_attribute_witness :
    buildDataAttributes defaultOptions
      { elementName := "Button", filePath := "src/App.tsx", fileName := "App.tsx"
      , line := 6, col := 8
      , content := buildContentObject (extractTextContent none) (extractElementAttributes []) }
      = buildDataAttributes { defaultOptions with includeContent := false }
          { elementName := "Button", filePath := "src/App.tsx", fileName := "App.tsx"
          , line := 6, col := 8
          , content := buildContentObject (extractTextContent none) (extractElementAttributes []) } :=
  C7_no_content_attribute defaultOptions "Button" "src/App.tsx" "App.tsx" 6 8 none [] rfl rfl rfl

/-- C10, witnessed on the fixture whose object and property names are both
missing: the extracted name is the one-character string "." and the tag is
not skipped under the default configuration. -/
theorem C10_member_expression_name_witness :
    extractElementName memberDotNode = some "."
    ∧ shouldSkipElement (extractElementName memberDotNode) defaultOptions = false := by
  have h := C10_member_expression_name memberDotNode none none none (some 7) rfl
  exact ⟨h.1, by rw [h.2.2 defaultOptions]; decide⟩

/-- Processing an opening tag never touches the trace. -/
theorem processOpeningTag_trace (options : GhostmarkOptions) (ctx : FileCtx)
    (jsxNode : JSXNode) (st : WalkState) :
    (processOpeningTag options ctx jsxNode st).trace = st.trace := by
  simp only [processOpeningTag]
  split
  · split <;> rfl
  · split <;> rfl

mutual

/-- Walking one subtree preserves the invariant that every opening-tag
visit recorded so far saw as its enclosing-element context the very
element that tag opens. -/
theorem walkTree_opening_inv (options : GhostmarkOptions) (ctx : FileCtx) (t : JTree)
    (st : WalkState)
    (h : ∀ op cur, TraceEvent.openingVisit op cur ∈ st.trace →
           ∃ kids, cur = some (JTree.elem op kids)) :
    ∀ op cur, TraceEvent.openingVisit op cur ∈ (walkTree options ctx t st).trace →
      ∃ kids, cur = some (JTree.elem op kids) := by
  cases t with
  | elem opening children =>
      simp only [walkTree]
      apply walkList_opening_inv
      intro op cur hmem
      rw [processOpeningTag_trace] at hmem
      simp only [List.mem_append, List.mem_singleton] at hmem
      rcases hmem with hmem | hmem
      · exact h op cur hmem
      · injection hmem with hop hcur
        subst hop
        exact ⟨children, hcur⟩
  | fragment children =>
      simp only [walkTree]
      apply walkList_opening_inv
      intro op cur hmem
      simp only [List.mem_append, List.mem_singleton] at hmem
      rcases hmem with hmem | hmem
      · exact h op cur hmem
      · simp at hmem
  | text v =>
      intro op cur hmem
      simp only [walkTree, List.mem_append, List.mem_singleton] at hmem
      rcases hmem with hmem | hmem
      · exact h op cur hmem
      · simp at hmem
  | exprContainer e =>
      intro op cur hmem
      simp only [walkTree, List.mem_append, List.mem_singleton] at hmem
      rcases hmem with hmem | hmem
      · exact h op cur hmem
      · simp at hmem
  | otherNode =>
      intro op cur hmem
      simp only [walkTree, List.mem_append, List.mem_singleton] at hmem
      rcases hmem with hmem | hmem
      · exact h op cur hmem
      · simp at hmem

/-- The same invariant, threaded through a sibling list. -/
theorem walkList_opening_inv (options : GhostmarkOptions) (ctx : FileCtx)
    (ts : List JTree) (st : WalkState)
    (h : ∀ op cur, TraceEvent.openingVisit op cur ∈ st.trace →
           ∃ kids, cur = some (JTree.elem op kids)) :
    ∀ op cur, TraceEvent.openingVisit op cur ∈ (walkList options ctx ts st).trace →
      ∃ kids, cur = some (JTree.elem op kids) := by
  cases ts with
  | nil => simpa only [walkList] using h
  | cons t ts' =>
      simp only [walkList]
      exact walkList_opening_inv options ctx ts' (walkTree options ctx t st)
              (walkTree_opening_inv options ctx t st h)

end

/-- C2 (amended).  For every walk of a parsed file, the enclosing-element
context against which an opening tag's text content is extracted is the
element that very tag opens (its nearest ancestor full element) - so no
opening tag ever picks up an exited element's children.  (The
never-reverted single reference makes the stronger revert-on-exit wording
of the claim false; see the counterexample.) -/
theorem C2_extraction_context (options : GhostmarkOptions) (ctx : FileCtx)
    (trees : List JTree) :
    ∀ op cur, TraceEvent.openingVisit op cur
        ∈ (walkList options ctx trees initialWalkState).trace →
      ∃ kids, cur = some (JTree.elem op kids) :=
  walkList_opening_inv options ctx trees initialWalkState
    (by intro op cur hmem; simp [initialWalkState] at hmem)

/-- The full trace of the sibling fixture: outer opening seen inside the
outer element, inner opening seen inside the inner element, and the outer
element's trailing text child still seen with the already-exited inner
element as context. -/
theorem exampleTrace_eq :
    (walkList defaultOptions ctx0 [treeA] initialWalkState).trace
      = [ TraceEvent.openingVisit opA (some treeA)
        , TraceEvent.openingVisit opB (some treeB)
        , TraceEvent.childVisit (JTree.text (some "hi")) (some treeB) ] := rfl

/-- C2, witnessed on the sibling fixture: the outer opening tag's recorded
context is the outer element itself. -/
theorem C2_extraction_context_witness :
    ∃ kids, (some treeA : Option JTree) = some (JTree.elem opA kids) :=
  C2_extraction_context defaultOptions ctx0 [treeA] opA (some treeA)
    (by rw [exampleTrace_eq]; exact List.mem_cons_self _ _)

/-- C2, refuted as literally stated: after the walk exits the inner
element's subtree, the context does not revert to the outer element - the
outer element's own text child is visited with the exited inner element
still recorded as context. -/
theorem C2_counterexample :
    (walkList defaultOptions ctx0 [treeA] initialWalkState).trace
      = [ TraceEvent.openingVisit opA (some treeA)
        , TraceEvent.openingVisit opB (some treeB)
        , TraceEvent.childVisit (JTree.text (some "hi")) (some treeB) ]
    ∧ (some treeB : Option JTree) ≠ some treeA :=
  ⟨exampleTrace_eq, by simp [treeA, treeB, opA, opB]⟩

/-- C3 (amended).  A Fragment or React.Fragment opening tag never produces
an insertion and never bumps the tagged count, but it does increment the
skipped-element counter by one (the counter guard only excludes falsy
names, and fragment names are non-empty strings). -/
theorem C3_fragment_tag (options : GhostmarkOptions) (ctx : FileCtx) (st : WalkState)
    (jsxNode : JSXNode)
    (h : extractElementName jsxNode = some "Fragment"
         ∨ extractElementName jsxNode = some "React.Fragment") :
    (processOpeningTag options ctx jsxNode st).insertions = st.insertions
    ∧ (processOpeningTag options ctx jsxNode st).changed = st.changed
    ∧ (processOpeningTag options ctx jsxNode st).skipped = st.skipped + 1 := by
  rcases h with h | h
  · simp [processOpeningTag, h, shouldSkipElement, jsTruthy]
  · simp [processOpeningTag, h, shouldSkipElement, jsTruthy]

/-- C3, witnessed on a Fragment tag from fresh state: no insertion, no
tagged element, one skipped element. -/
theorem C3_fragment_tag_witness :
    (processOpeningTag defaultOptions ctx0 fragmentNode initialWalkState).insertions = []
    ∧ (processOpeningTag defaultOptions ctx0 fragmentNode initialWalkState).changed = 0
    ∧ (processOpeningTag defaultOptions ctx0 fragmentNode initialWalkState).skipped = 1 :=
  C3_fragment_tag defaultOptions ctx0 initialWalkState fragmentNode (Or.inl rfl)

/-- C3, refuted as literally stated: a Fragment tag does change the
skipped-element counter. -/
theorem C3_counterexample :
    (processOpeningTag defaultOptions ctx0 fragmentNode initialWalkState).skipped
      ≠ initialWalkState.skipped := by decide

/-- C9 (amended).  A tag with neither a type-parameter-list end offset nor
a name end offset resolves to insertion offset 0, and the caller does not
treat that as a no-op: whenever the serialized attribute block is
non-empty it is registered as an insertion at offset 0, the start of the
file. -/
theorem C9_zero_offset (options : GhostmarkOptions) (ctx : FileCtx) (st : WalkState)
    (jsxNode : JSXNode)
    (h1 : jsxNode.typeParameters = none) (h2 : jsxNode.name.endPos = none)
    (h3 : shouldSkipElement (extractElementName jsxNode) options = false)
    (h4 : builtAttributes options ctx jsxNode st.currentElement ≠ "") :
    getInsertPosition jsxNode = 0
    ∧ (processOpeningTag options ctx jsxNode st).insertions
        = st.insertions ++ [(0, builtAttributes options ctx jsxNode st.currentElement)] := by
  have hp : getInsertPosition jsxNode = 0 := by simp [getInsertPosition, h1, h2]
  refine ⟨hp, ?_⟩
  simp [processOpeningTag, h3, h4, hp]

/-- C9, witnessed on the offset-less Button fixture under the default
configuration: the attribute block is registered at offset 0. -/
theorem C9_zero_offset_witness :
    getInsertPosition buttonNoEndNode = 0
    ∧ (processOpeningTag defaultOptions ctx0 buttonNoEndNode initialWalkState).insertions
        = [(0, builtAttributes defaultOptions ctx0 buttonNoEndNode none)] :=
  C9_zero_offset defaultOptions ctx0 initialWalkState buttonNoEndNode rfl rfl
    (by decide) (by decide)

/-- C9, refuted as literally stated: for the offset-less tag the caller
splices a non-empty attribute block at the very start of the file rather
than performing no insertion. -/
theorem C9_counterexample :
    (processOpeningTag defaultOptions ctx0 buttonNoEndNode initialWalkState).insertions
      = [(0, " data-gm-id=\"src/App.tsx:0:0\" data-gm-name=\"Button\" data-gm-path=\"src/App.tsx\" data-gm-line=\"0\" data-gm-file=\"App.tsx\"")] := by
  decide

end Ghostmark
